import Mathlib

/-!
Verification of the streaming conversation protocol handler of the B2B
procurement assistant frontend.

The definitions below are a shallow embedding of the JavaScript source:

* `createXHRStream`, `processChunk`, `captureStep`
  (src/frontend/src/api/endpoints.js) — the XHR-based SSE transport: per-chunk
  line splitting, heartbeat/blank skipping, `data: ` framing, JSON decode with
  per-line failure tolerance, thread-id capture, and the terminal
  onComplete/onError callback discipline.  JSON.parse with its try/catch is
  modelled by an ambient `decode : String → Option Payload` parameter: a line
  whose decode is `none` is a line on which `JSON.parse` threw.
* `handleStreamEvent`, `appendAIMessage`, `addUserMessage`, `handleSubmit`,
  `handleStartConversation`, `handleContinueConversation`,
  `handleResumeConversation`, `handleStreamComplete`, `handleStreamError`,
  `handleNewConversation` (src/frontend/src/pages/Conversation.jsx) — the
  session controller and event reducer.  The React `useState` cells are
  collected into one record `ConvState`; `Date.now()` and
  `new Date().toISOString()` are modelled by an explicit clock argument
  `now : Nat` (one reading per handler invocation, the flushed reasoning
  message using `now + 1` as in the source).
* `handleStreamingSubmitEvent` (src/frontend/src/pages/NewConversation.jsx) —
  the competing stream reducer of the New-Conversation page.
* `allMessages` (src/unnamed/part_010, the alternative ConversationMessages
  component) — the transcript assembler merging committed messages with the
  in-flight accumulators.

JavaScript truthiness on optional strings / numbers is made explicit through
`truthy`, `jsOr` and `jsOrNat` (`undefined`, `null`, `""` and `0` are falsy).
-/

namespace B2B

/-- JS truthiness of an optional string: `undefined`/`null` and `""` are falsy. -/
def truthy : Option String → Bool
  | none => false
  | some s => s != ""

/-- JS `a || b` for an optional string `a` and a string default `b`. -/
def jsOr (a : Option String) (b : String) : String :=
  match a with
  | none => b
  | some s => if s != "" then s else b

/-- JS `a || b` for an optional number `a` and a numeric default `b` (`0` is falsy). -/
def jsOrNat (a : Option Nat) (b : Nat) : Nat :=
  match a with
  | none => b
  | some n => if n != 0 then n else b

/-! The JavaScript string primitives the source uses, embedded as structural
functions over the character list of a string (the core library versions are
extensionally the same but are defined by well-founded recursion, which a
fully evaluable embedding avoids). -/

/-- JS startsWith. -/
def jsStartsWith (s pre : String) : Bool := pre.toList.isPrefixOf s.toList

/-- JS trim: strip leading and trailing whitespace. -/
def jsTrim (s : String) : String :=
  String.mk (((s.toList.dropWhile Char.isWhitespace).reverse.dropWhile Char.isWhitespace).reverse)

/-- Split a character list at every occurrence of the separator. -/
def splitChars (c : Char) : List Char → List (List Char)
  | [] => [[]]
  | x :: xs =>
    let r := splitChars c xs
    if x = c then [] :: r
    else
      match r with
      | [] => [[x]]
      | y :: ys => (x :: y) :: ys

/-- JS split with a one-character separator (no collapsing of empty pieces). -/
def jsSplit (s : String) (c : Char) : List String := (splitChars c s.toList).map String.mk

/-- JS slice from a character offset. -/
def jsDrop (s : String) (n : Nat) : String := String.mk (s.toList.drop n)

/-- The fields of one decoded JSON stream record that the frontend reads
(`type`, `thread_id`, `content`, `error`, `attempt`, `node`, `intent`,
`count`).  A `none` field is a field absent from the JSON object. -/
structure Payload where
  type : Option String := none
  thread_id : Option String := none
  content : Option String := none
  error : Option String := none
  attempt : Option Nat := none
  node : Option String := none
  intent : Option String := none
  count : Option Nat := none
deriving Repr, DecidableEq

/-- The event object handed to `onEvent`: `{ type: parsedData.type, data: parsedData }`. -/
structure StreamEvent where
  type : Option String
  data : Payload
deriving Repr, DecidableEq

/-- How `createXHRStream` wraps a decoded record: `event.type = parsedData.type`, `event.data = parsedData`. -/
def eventOf (p : Payload) : StreamEvent := ⟨p.type, p⟩

/-- One line of the reader loop in `xhr.onprogress`: trim, drop blank lines,
drop `: ping` heartbeats, keep only `data: ` lines, decode the remainder;
a decode failure (caught exception in the source) yields no record. -/
def parseDataLine (decode : String → Option Payload) (line : String) : Option Payload :=
  let trimmedLine := jsTrim line
  if trimmedLine == "" then none
  else if jsStartsWith trimmedLine ": ping" then none
  else if jsStartsWith trimmedLine "data: " then decode (jsDrop trimmedLine 6)
  else none

/-- The records decoded from a list of raw lines, in order. -/
def processLines (decode : String → Option Payload) (lines : List String) : List Payload :=
  lines.filterMap (parseDataLine decode)

/-- The records decoded from one progress chunk: split on the newline character, then per-line. -/
def processChunk (decode : String → Option Payload) (newData : String) : List Payload :=
  processLines decode (jsSplit newData '\n')

/-- The `capturedThreadId` update: capture `parsedData.thread_id` when it is
truthy and nothing truthy has been captured yet. -/
def captureStep (capturedThreadId : Option String) (p : Payload) : Option String :=
  if truthy p.thread_id && !(truthy capturedThreadId) then p.thread_id else capturedThreadId

/-- How the underlying XHR request ends: the response completes (with some
HTTP status code, `xhr.onload`), a network failure occurs (`xhr.onerror`),
or the request is aborted (`xhr.onabort`). -/
inductive XHRResult where
  | completed (status : Nat)
  | netError
  | aborted
deriving Repr, DecidableEq

/-- One callback invocation made by the transport towards the session. -/
inductive Callback where
  | onEvent (e : StreamEvent)
  | onComplete (status : String) (thread_id : Option String)
  | onError (message : String)
deriving Repr, DecidableEq

def isOnEvent : Callback → Bool
  | .onEvent _ => true
  | _ => false

def isOnComplete : Callback → Bool
  | .onComplete _ _ => true
  | _ => false

def isOnError : Callback → Bool
  | .onError _ => true
  | _ => false

/-- The callback trace of `createXHRStream` on a stream whose progress
deltas are `chunks` and whose request ends as `result`: every decoded record
is delivered through `onEvent` in order; then `xhr.onload` calls
`onComplete` with status `completed` and the captured thread id — without
inspecting `xhr.status` — `xhr.onerror` calls `onError` with the message
`Network error`, and `xhr.onabort` calls neither. -/
def createXHRStream (decode : String → Option Payload) (chunks : List String)
    (result : XHRResult) : List Callback :=
  let records := chunks.flatMap (processChunk decode)
  let capturedThreadId := records.foldl captureStep none
  let calls := records.map (fun p => Callback.onEvent (eventOf p))
  match result with
  | XHRResult.completed _ => calls ++ [Callback.onComplete "completed" capturedThreadId]
  | XHRResult.netError => calls ++ [Callback.onError "Network error"]
  | XHRResult.aborted => calls

/-- A message id: `Date.now()` produces numbers, while the transcript
assembler uses the string ids `streaming` and `thought` for synthetic entries. -/
inductive MsgId where
  | num : Nat → MsgId
  | str : String → MsgId
deriving Repr, DecidableEq

/-- One transcript entry as built by Conversation.jsx
(`{id, from, content, type, timestamp, status}`). -/
structure Message where
  id : MsgId
  from_ : String
  content : String
  type : String
  timestamp : Nat
  status : String
deriving Repr, DecidableEq

/-- The `useState` cells of the Conversation page, plus `lastUserInputRef`. -/
structure ConvState where
  messages : List Message
  currentThreadId : Option String
  isStreaming : Bool
  isWaitingForSupplier : Bool
  streamingMessage : String
  assistantThought : String
  error : Option String
  connectionStatus : String
  retryAttempt : Nat
  lastUserInput : String
deriving Repr, DecidableEq

/-- The initial state of a freshly mounted Conversation page (route thread id
`threadId || null`). -/
def initialConvState (threadId : Option String) : ConvState :=
  { messages := []
    currentThreadId := threadId
    isStreaming := false
    isWaitingForSupplier := false
    streamingMessage := ""
    assistantThought := ""
    error := none
    connectionStatus := "connected"
    retryAttempt := 0
    lastUserInput := "" }

/-- Source `addUserMessage`: append an optimistic complete user message with
`id = Date.now()`. -/
def addUserMessage (now : Nat) (content : String) (s : ConvState) : ConvState :=
  { s with messages := s.messages ++
      [{ id := MsgId.num now, from_ := "user", content := content, type := "user",
         timestamp := now, status := "complete" }] }

/-- Source `appendAIMessage`: flush the `streamingMessage` accumulator (if truthy)
into a complete assistant message with `id = Date.now()`, then flush the
`assistantThought` accumulator (if truthy) into a complete
`assistant_thought` message with `id = Date.now() + 1`. -/
def appendAIMessage (now : Nat) (s : ConvState) : ConvState :=
  let s1 :=
    if s.streamingMessage != "" then
      { s with
        messages := s.messages ++
          [{ id := MsgId.num now, from_ := "assistant", content := s.streamingMessage,
             type := "assistant", timestamp := now, status := "complete" }],
        streamingMessage := "" }
    else s
  if s1.assistantThought != "" then
    { s1 with
      messages := s1.messages ++
        [{ id := MsgId.num (now + 1), from_ := "assistant", content := s1.assistantThought,
           type := "assistant_thought", timestamp := now, status := "complete" }],
      assistantThought := "" }
  else s1

/-- The `message` / `ai_chunk` / `node_progress` branch of `handleStreamEvent`:
echo suppression (content truthy and its trim different from
`lastUserInputRef.current`), then appending to the live accumulator, or to the
thought accumulator when `data.type` is `assistant_thought`. -/
def messageCase (s : ConvState) (data : Payload) : ConvState :=
  if truthy data.content && (jsTrim (data.content.getD "") != s.lastUserInput) then
    let c := data.content.getD ""
    let s1 :=
      if data.type != some "assistant_thought" then
        { s with streamingMessage :=
            if s.streamingMessage != "" then s.streamingMessage ++ c else c }
      else s
    if data.type == some "assistant_thought" then
      { s1 with assistantThought :=
          if s1.assistantThought != "" then s1.assistantThought ++ "\n" ++ c else c }
    else s1
  else s

/-- The `ai_complete` / `workflow_complete` branch: flush the accumulators and
leave the streaming phase. -/
def completeCase (now : Nat) (s : ConvState) : ConvState :=
  let s1 := appendAIMessage now s
  { s1 with isStreaming := false, isWaitingForSupplier := false }

/-- Source `handleStreamEvent`: the event reducer of the Conversation page. -/
def handleStreamEvent (now : Nat) (s : ConvState) (event : StreamEvent) : ConvState :=
  let t := event.type
  let data := event.data
  if t == some "reconnecting" then
    { s with connectionStatus := "reconnecting", retryAttempt := jsOrNat data.attempt 0 }
  else if t == some "connected" then
    let s1 := { s with connectionStatus := "connected", retryAttempt := 0 }
    if truthy data.thread_id && !(truthy s1.currentThreadId) then
      { s1 with currentThreadId := data.thread_id }
    else s1
  else if t == some "message" || t == some "ai_chunk" || t == some "node_progress" then
    messageCase s data
  else if t == some "ai_complete" || t == some "workflow_complete" then
    completeCase now s
  else if t == some "supplier_wait" || t == some "paused" then
    { s with isWaitingForSupplier := true }
  else if t == some "supplier_response" then
    let s1 := { s with isWaitingForSupplier := false }
    if truthy data.content then
      { s1 with messages := s1.messages ++
          [{ id := MsgId.num now, from_ := "supplier", content := data.content.getD "",
             type := "supplier", timestamp := now, status := "complete" }] }
    else s1
  else if t == some "error" then
    { s with error := some (jsOr data.error "An error occurred"),
             isStreaming := false, connectionStatus := "error" }
  else s

/-- Source `handleStartConversation`: record the last submitted input, append the
optimistic user message, and enter the streaming phase. -/
def handleStartConversation (now : Nat) (userInput : String) (s : ConvState) : ConvState :=
  let s1 := addUserMessage now userInput { s with lastUserInput := userInput }
  { s1 with isStreaming := true, error := none,
            connectionStatus := "connected", streamingMessage := "" }

/-- Source `handleContinueConversation`: like start, additionally clearing the
awaiting-supplier flag. -/
def handleContinueConversation (now : Nat) (userInput : String) (s : ConvState) : ConvState :=
  let s1 := addUserMessage now userInput { s with lastUserInput := userInput }
  { s1 with isStreaming := true, error := none, isWaitingForSupplier := false,
            connectionStatus := "connected", streamingMessage := "" }

/-- Source `handleSubmit`: reject blank input or a submission while streaming, then
start (no truthy thread id yet) or continue. -/
def handleSubmit (now : Nat) (userInput : String) (s : ConvState) : ConvState :=
  if jsTrim userInput == "" || s.isStreaming then s
  else if !(truthy s.currentThreadId) then handleStartConversation now userInput s
  else handleContinueConversation now userInput s

/-- Source `handleStreamComplete`: flush the accumulators and return to idle. -/
def handleStreamComplete (now : Nat) (s : ConvState) : ConvState :=
  let s1 := appendAIMessage now s
  { s1 with isStreaming := false, connectionStatus := "connected" }

/-- Source `handleStreamError`: surface the error message, defaulting to
`Connection error` when the message is falsy. -/
def handleStreamError (message : Option String) (s : ConvState) : ConvState :=
  { s with error := some (jsOr message "Connection error"),
           isStreaming := false, connectionStatus := "error" }

/-- Source `handleNewConversation`: abort whatever transport is active and reset the
page state (messages, thread id, phases, accumulators, error, connection),
leaving `retryAttempt` and `lastUserInputRef` as they were. -/
def handleNewConversation (s : ConvState) : ConvState :=
  { s with messages := [], currentThreadId := none, isStreaming := false,
           isWaitingForSupplier := false, streamingMessage := "",
           assistantThought := "", error := none, connectionStatus := "connected" }

/-- The body of one streaming request (endpoints.js). -/
inductive RequestBody where
  | start (user_input : String) (recipient_email : Option String) (channel : String)
  | cont (user_input : String)
  | resume (supplier_response : String)
deriving Repr, DecidableEq

/-- A streaming request as assembled by the endpoint wrappers. -/
structure StreamRequest where
  url : String
  method : String
  body : RequestBody
deriving Repr, DecidableEq

/-- Source `resumeConversationStream`: POST to the resume endpoint of the
thread with a body whose `supplier_response` field is the given text. -/
def resumeConversationStream (threadId : String) (supplierResponse : String) : StreamRequest :=
  { url := "/conversations/" ++ threadId ++ "/stream/resume", method := "POST",
    body := RequestBody.resume supplierResponse }

/-- Source `handleResumeConversation`: enter the streaming phase and open the
resume stream, passing the hardcoded `requestId` constant `temp_request_id` as
the `supplierResponse` argument of `resumeConversationStream`. -/
def handleResumeConversation (s : ConvState) : ConvState × StreamRequest :=
  let s1 := { s with isStreaming := true, error := none, isWaitingForSupplier := false,
                     connectionStatus := "connected", streamingMessage := "" }
  let requestId := "temp_request_id"
  (s1, resumeConversationStream (s.currentThreadId.getD "null") requestId)

/-- The session-controller operations quantified over by the transcript
invariants: user submission, a reduced stream frame, stream completion, and
stream failure. -/
inductive Op where
  | submit (userInput : String)
  | frame (e : StreamEvent)
  | complete
  | fail (message : Option String)
deriving Repr, DecidableEq

/-- Apply one controller operation at clock reading `now`. -/
def applyOp (now : Nat) (s : ConvState) : Op → ConvState
  | .submit u => handleSubmit now u s
  | .frame e => handleStreamEvent now s e
  | .complete => handleStreamComplete now s
  | .fail m => handleStreamError m s

/-- Uppercase the first character of a word, keep the rest (NewConversation.jsx). -/
def capitalizeWord (word : String) : String :=
  match word.toList with
  | [] => ""
  | c :: rest => String.mk (Char.toUpper c :: rest)

/-- Source `formatNodeName`: split on underscores, capitalize each word, join
with spaces. -/
def formatNodeName (nodeName : String) : String :=
  String.intercalate " " ((jsSplit nodeName '_').map capitalizeWord)

/-- The consolidated streaming state of the NewConversation page. -/
structure StreamStateNC where
  isStreaming : Bool
  events : List StreamEvent
  currentNode : String
  threadId : Option String
deriving Repr, DecidableEq

/-- The state just after `handleStreamingSubmit` resets it. -/
def streamStateNC0 : StreamStateNC :=
  { isStreaming := true, events := [], currentNode := "Initializing...", threadId := none }

/-- The `onEvent` reducer inside `handleStreamingSubmit`
(NewConversation.jsx): the effective event type is the first truthy value
among `event.type`, `event.data.type` and the default `message`; push the
event, update the current-node label, and adopt the truthy-or-previous
thread id on `connected` and on `workflow_complete`. -/
def handleStreamingSubmitEvent (prev : StreamStateNC) (event : StreamEvent) : StreamStateNC :=
  let eventType := jsOr event.type (jsOr event.data.type "message")
  let eventData := event.data
  let newEvents := prev.events ++ [⟨some eventType, eventData⟩]
  let nodeAndThread : String × Option String :=
    match eventType with
    | "connected" =>
        ("✅ Connected", if truthy eventData.thread_id then eventData.thread_id else prev.threadId)
    | "node_progress" =>
        ("⚙️ " ++ formatNodeName (jsOr eventData.node "Processing"), prev.threadId)
    | "intent_classified" =>
        ("🎯 Intent: " ++ jsOr eventData.intent "Unknown", prev.threadId)
    | "parameters_extracted" => ("📋 Parameters Extracted", prev.threadId)
    | "suppliers_found" =>
        ("🏢 Found " ++ toString (jsOrNat eventData.count 0) ++ " Suppliers", prev.threadId)
    | "quote_generated" => ("📄 Quote Generated", prev.threadId)
    | "message" =>
        ("💬 " ++ formatNodeName (jsOr eventData.node "Message"), prev.threadId)
    | "workflow_complete" =>
        ("✅ Completed", if truthy eventData.thread_id then eventData.thread_id else prev.threadId)
    | "error" => ("❌ Error", prev.threadId)
    | _ => (prev.currentNode, prev.threadId)
  { prev with events := newEvents, currentNode := nodeAndThread.1,
              threadId := nodeAndThread.2 }

/-- The transcript assembler of the alternative ConversationMessages component
(src/unnamed/part_010): start from the committed messages, push a synthetic
entry with the string id `streaming` and status `streaming` when the live
accumulator is truthy, then a synthetic entry with the string id `thought` and
status `complete` when the thought accumulator is truthy; the synthetic
timestamps read the clock. -/
def allMessages (now : Nat) (messages : List Message)
    (streamingMessage assistantThought : String) : List Message :=
  let l1 := messages
  let l2 :=
    if streamingMessage != "" then
      l1 ++ [{ id := MsgId.str "streaming", from_ := "assistant", content := streamingMessage,
               type := "assistant", timestamp := now, status := "streaming" }]
    else l1
  if assistantThought != "" then
    l2 ++ [{ id := MsgId.str "thought", from_ := "assistant", content := assistantThought,
             type := "assistant_thought", timestamp := now, status := "complete" }]
  else l2

/-! Derived notions used by the statements below. -/

/-- The assistant message flushed from the live accumulator by `appendAIMessage`. -/
def flushedMain (now : Nat) (s : ConvState) : Message :=
  { id := MsgId.num now, from_ := "assistant", content := s.streamingMessage,
    type := "assistant", timestamp := now, status := "complete" }

/-- The thought message flushed from the thought accumulator by `appendAIMessage`. -/
def flushedThought (now : Nat) (s : ConvState) : Message :=
  { id := MsgId.num (now + 1), from_ := "assistant", content := s.assistantThought,
    type := "assistant_thought", timestamp := now, status := "complete" }

/-- Whether a message id is a numeric id below the clock reading `n`
(string ids are unconstrained). -/
def idNumBelow : MsgId → Nat → Bool
  | MsgId.num k, n => decide (k < n)
  | MsgId.str _, _ => true

/-- Whether a message id is a numeric id at or above the clock reading `n`. -/
def idNumGe : MsgId → Nat → Bool
  | MsgId.num k, n => decide (n ≤ k)
  | MsgId.str _, _ => false

/-- A raw line the reader loop must ignore: blank after trimming, a heartbeat
line, a line without the record marker, or a line whose JSON remainder fails
to decode. -/
def badLine (decode : String → Option Payload) (line : String) : Prop :=
  jsTrim line = "" ∨ jsStartsWith (jsTrim line) ": ping" = true
    ∨ jsStartsWith (jsTrim line) "data: " = false
    ∨ decode (jsDrop (jsTrim line) 6) = none

/-- Erase the clock-dependent field of a render entry. -/
def stripTimestamp (m : Message) : Message := { m with timestamp := 0 }

/-- The synthetic render entry for a non-empty live accumulator. -/
def streamingEntry (now : Nat) (sm : String) : Message :=
  { id := MsgId.str "streaming", from_ := "assistant", content := sm,
    type := "assistant", timestamp := now, status := "streaming" }

/-- The synthetic render entry for a non-empty thought accumulator. -/
def thoughtEntry (now : Nat) (th : String) : Message :=
  { id := MsgId.str "thought", from_ := "assistant", content := th,
    type := "assistant_thought", timestamp := now, status := "complete" }

/-! Concrete fixtures used by witnesses and counterexamples. -/

/-- A concrete stand-in for the ambient JSON decoder: a handful of short
tokens decode to fixed records, everything else fails to decode. -/
def testDecode (str : String) : Option Payload :=
  if str = "A" then some { type := some "connected", thread_id := some "t1" }
  else if str = "B" then some { type := some "message", content := some "hi" }
  else if str = "E" then some { type := some "connected", thread_id := some "" }
  else if str = "T2" then some { type := some "connected", thread_id := some "t2" }
  else none

/-- A session that already adopted the thread id t1. -/
def convC2 : ConvState := initialConvState (some "t1")

/-- A connected event carrying the different thread id t2. -/
def evC2 : StreamEvent := ⟨some "connected", { type := some "connected", thread_id := some "t2" }⟩

/-- A NewConversation connected event carrying thread id t1. -/
def ncEventConnected : StreamEvent :=
  ⟨some "connected", { type := some "connected", thread_id := some "t1" }⟩

/-- A NewConversation workflow_complete event carrying thread id t2. -/
def ncEventComplete : StreamEvent :=
  ⟨some "workflow_complete", { type := some "workflow_complete", thread_id := some "t2" }⟩

/-- A streaming session with a pending live accumulator. -/
def convC3 : ConvState :=
  { initialConvState (some "t1") with isStreaming := true, streamingMessage := "Hello world" }

/-- A streaming session whose last submission was Hello. -/
def convC4 : ConvState :=
  { initialConvState (some "t1") with isStreaming := true, lastUserInput := "Hello" }

/-- A progress frame that echoes the submitted prompt with trailing whitespace. -/
def evC4echo : StreamEvent :=
  ⟨some "message", { type := some "message", content := some "Hello " }⟩

/-- A progress frame with fresh content. -/
def evC4fresh : StreamEvent :=
  ⟨some "node_progress", { type := some "node_progress", content := some "Searching" }⟩

/-- A streaming session with one committed message and a draft accumulator. -/
def convC6 : ConvState :=
  { initialConvState (some "t1") with
      messages := [{ id := MsgId.num 100, from_ := "user", content := "Hi", type := "user",
                     timestamp := 100, status := "complete" }],
      isStreaming := true, streamingMessage := "partial draft" }

/-- A session holding one committed message with a small numeric id. -/
def convC8 : ConvState :=
  { initialConvState none with
      messages := [{ id := MsgId.num 3, from_ := "user", content := "earlier", type := "user",
                     timestamp := 3, status := "complete" }] }

/-- A supplier_response frame with content. -/
def evC8 : StreamEvent :=
  ⟨some "supplier_response", { type := some "supplier_response", content := some "ok" }⟩

/-- The optimistic user message appended by `addUserMessage`. -/
def userMsg (now : Nat) (u : String) : Message :=
  { id := MsgId.num now, from_ := "user", content := u, type := "user",
    timestamp := now, status := "complete" }

/-- The supplier message appended by the supplier_response branch. -/
def supplierMsg (now : Nat) (c : String) : Message :=
  { id := MsgId.num now, from_ := "supplier", content := c, type := "supplier",
    timestamp := now, status := "complete" }

/-! ### Helper lemmas -/

theorem messageCase_messages (s : ConvState) (d : Payload) :
    (messageCase s d).messages = s.messages := by
  simp only [messageCase]
  split_ifs <;> rfl

theorem messageCase_currentThreadId (s : ConvState) (d : Payload) :
    (messageCase s d).currentThreadId = s.currentThreadId := by
  simp only [messageCase]
  split_ifs <;> rfl

theorem appendAIMessage_spec (now : Nat) (s : ConvState) :
    (appendAIMessage now s).messages
        = s.messages ++ (if s.streamingMessage != "" then [flushedMain now s] else [])
            ++ (if s.assistantThought != "" then [flushedThought now s] else [])
    ∧ (appendAIMessage now s).streamingMessage = ""
    ∧ (appendAIMessage now s).assistantThought = ""
    ∧ (appendAIMessage now s).currentThreadId = s.currentThreadId := by
  by_cases h1 : s.streamingMessage = "" <;> by_cases h2 : s.assistantThought = "" <;>
    simp [appendAIMessage, flushedMain, flushedThought, h1, h2, List.append_assoc]

theorem completeCase_currentThreadId (now : Nat) (s : ConvState) :
    (completeCase now s).currentThreadId = s.currentThreadId := by
  have h := (appendAIMessage_spec now s).2.2.2
  simp [completeCase, h]

/-! ### C7 — resume carries a hardcoded placeholder, not the real request id -/

/-- C7: every invocation of the resume operation sends the constant
`temp_request_id` as the body of the resume request; the real identifier of
the paused pending request is never consulted (there is no such field in the
page state at all). -/
theorem resume_sends_placeholder (s : ConvState) :
    (handleResumeConversation s).2.body = RequestBody.resume "temp_request_id" := rfl

/-! ### C6 — there is no transcript-preserving cancel in the code -/

/-- C6 counterexample: the only operation that aborts the in-flight transport,
`handleNewConversation`, does not leave the committed transcript unchanged —
it clears it. -/
theorem cancel_clears_transcript :
    (handleNewConversation convC6).messages = [] ∧ convC6.messages ≠ [] :=
  ⟨rfl, by decide⟩

/-- C6 amended: the transport cleanup only aborts the request — an aborted
stream delivers no completion or failure callback, so nothing can flush the
in-flight accumulator into the transcript — and the one caller of the
cleanup, `handleNewConversation`, resets the phase to idle and drops the
accumulator unflushed, but it also clears the transcript and the thread id
(it is a reset, not a cancel). -/
theorem newConversation_resets_and_abort_is_silent (s : ConvState)
    (decode : String → Option Payload) (chunks : List String) :
    (handleNewConversation s).isStreaming = false
    ∧ (handleNewConversation s).messages = []
    ∧ (handleNewConversation s).streamingMessage = ""
    ∧ (handleNewConversation s).currentThreadId = none
    ∧ (createXHRStream decode chunks XHRResult.aborted).all isOnEvent = true := by
  refine ⟨rfl, rfl, rfl, rfl, ?_⟩
  have h : ∀ cb ∈ (chunks.flatMap (processChunk decode)).map
      (fun p => Callback.onEvent (eventOf p)), isOnEvent cb = true := by
    intro cb hcb
    rcases List.mem_map.mp hcb with ⟨p, _, rfl⟩
    rfl
  simpa [createXHRStream, List.all_eq_true] using h

/-! ### C2 — thread-id adoption -/

/-- C2 counterexample: the NewConversation stream reducer has no one-shot
guard — after adopting t1 from a connected event, a workflow_complete event
carrying t2 overwrites the thread id. -/
theorem newConversation_overwrites_threadId :
    (handleStreamingSubmitEvent streamStateNC0 ncEventConnected).threadId = some "t1"
    ∧ (handleStreamingSubmitEvent
        (handleStreamingSubmitEvent streamStateNC0 ncEventConnected)
        ncEventComplete).threadId = some "t2"
    ∧ (some "t2" : Option String) ≠ some "t1" := by
  refine ⟨by decide, by decide, by decide⟩

/-- C2 amended: in the Conversation page reducer the adoption is one-shot —
once the session holds a truthy thread id, no later event (whatever thread id
it carries) changes it; the NewConversation page reducer instead adopts the
latest truthy thread id, so a later connected or workflow_complete event
carrying a different id overwrites it. -/
theorem threadId_one_shot (now : Nat) (s : ConvState) (e : StreamEvent)
    (h : truthy s.currentThreadId = true) :
    (handleStreamEvent now s e).currentThreadId = s.currentThreadId := by
  simp only [handleStreamEvent]
  split_ifs <;>
    simp_all [messageCase_currentThreadId, completeCase_currentThreadId]

/-- C2 witness: a session that adopted t1 keeps it when a connected event
carrying t2 arrives. -/
theorem threadId_one_shot_witness :
    (handleStreamEvent 5 convC2 evC2).currentThreadId = convC2.currentThreadId :=
  threadId_one_shot 5 convC2 evC2 (by decide)

/-! ### C9 — the transcript assembler -/

/-- C9 counterexample: the synthetic trailing entry built from the reasoning
accumulator carries status complete, not streaming. -/
theorem assembler_thought_entry_not_streaming :
    (allMessages 5 [] "" "thinking").map Message.status = ["complete"]
    ∧ ("complete" : String) ≠ "streaming" :=
  ⟨rfl, by decide⟩

/-- C9 amended: for a fixed clock reading the assembler is a pure function of
its three inputs; the committed transcript is preserved unchanged as a
prefix; the non-empty live accumulator appears as one synthetic trailing
entry with status streaming and the non-empty reasoning accumulator as one
synthetic trailing entry with status complete (in that order, after all
committed messages); two renderings taken at different instants differ at
most in the synthetic timestamps. -/
theorem assembler_prefix_and_trailing (now now2 : Nat) (messages : List Message)
    (sm th : String) :
    (∃ t, allMessages now messages sm th = messages ++ t
      ∧ t.map Message.status
          = (if sm != "" then ["streaming"] else []) ++ (if th != "" then ["complete"] else [])
      ∧ t.map Message.id
          = (if sm != "" then [MsgId.str "streaming"] else [])
              ++ (if th != "" then [MsgId.str "thought"] else []))
    ∧ (allMessages now messages sm th).map stripTimestamp
        = (allMessages now2 messages sm th).map stripTimestamp := by
  constructor
  · refine ⟨(if sm != "" then [streamingEntry now sm] else [])
      ++ (if th != "" then [thoughtEntry now th] else []), ?_, ?_, ?_⟩ <;>
      by_cases h1 : sm = "" <;> by_cases h2 : th = "" <;>
        simp [allMessages, streamingEntry, thoughtEntry, h1, h2, List.append_assoc]
  · by_cases h1 : sm = "" <;> by_cases h2 : th = "" <;>
      simp [allMessages, stripTimestamp, h1, h2]

/-! ### Transport callback discipline -/

theorem countP_onEvent_zero (pred : Callback → Bool)
    (h : ∀ e, pred (Callback.onEvent e) = false) (l : List Payload) :
    (l.map (fun p => Callback.onEvent (eventOf p))).countP pred = 0 := by
  induction l with
  | nil => rfl
  | cons p rest ih => simp [List.countP_cons, h, ih]

theorem getLast?_append_singleton {α : Type} (l : List α) (a : α) :
    (l ++ [a]).getLast? = some a := by
  induction l with
  | nil => rfl
  | cons x xs ih =>
    cases xs with
    | nil => rfl
    | cons y ys =>
      simpa [List.getLast?_cons_cons] using ih

/-- C1 counterexample: a completed HTTP response with status 500 still invokes
the completion callback and never the failure callback — the transport does
not inspect the status code. -/
theorem non2xx_completes_not_fails :
    createXHRStream testDecode [] (XHRResult.completed 500)
        = [Callback.onComplete "completed" none]
    ∧ (createXHRStream testDecode [] (XHRResult.completed 500)).countP isOnError = 0 :=
  ⟨rfl, rfl⟩

/-- C1 amended: per stream, the completion callback fires exactly once when
the HTTP response completes — for every status code, 2xx or not — and the
failure callback fires exactly once on a network failure; exactly one of the
two fires per non-aborted stream, and an aborted stream fires neither. -/
theorem transport_exactly_one_termination (decode : String → Option Payload)
    (chunks : List String) :
    (∀ status : Nat,
      (createXHRStream decode chunks (XHRResult.completed status)).countP isOnComplete = 1
      ∧ (createXHRStream decode chunks (XHRResult.completed status)).countP isOnError = 0)
    ∧ (createXHRStream decode chunks XHRResult.netError).countP isOnComplete = 0
    ∧ (createXHRStream decode chunks XHRResult.netError).countP isOnError = 1
    ∧ (createXHRStream decode chunks XHRResult.aborted).countP isOnComplete = 0
    ∧ (createXHRStream decode chunks XHRResult.aborted).countP isOnError = 0 := by
  have hc := countP_onEvent_zero isOnComplete (fun _ => rfl) (chunks.flatMap (processChunk decode))
  have he := countP_onEvent_zero isOnError (fun _ => rfl) (chunks.flatMap (processChunk decode))
  refine ⟨fun status => ⟨?_, ?_⟩, ?_, ?_, ?_, ?_⟩ <;>
    simp [createXHRStream, List.countP_append, List.countP_cons, hc, he,
      isOnComplete, isOnError]

/-! ### Thread-id capture in the transport -/

theorem truthy_none : truthy none = false := rfl

theorem foldl_captureStep_of_truthy (l : List Payload) (acc : Option String)
    (h : truthy acc = true) : l.foldl captureStep acc = acc := by
  induction l with
  | nil => rfl
  | cons p rest ih =>
    rw [List.foldl_cons]
    have hstep : captureStep acc p = acc := by simp [captureStep, h]
    rw [hstep, ih]

theorem foldl_captureStep_none (l : List Payload) :
    l.foldl captureStep none
      = (l.find? (fun p => truthy p.thread_id)).bind Payload.thread_id := by
  induction l with
  | nil => rfl
  | cons p rest ih =>
    rw [List.foldl_cons]
    by_cases h : truthy p.thread_id = true
    · have hcap : captureStep none p = p.thread_id := by
        simp [captureStep, truthy_none, h]
      have hfind : List.find? (fun q => truthy q.thread_id) (p :: rest) = some p :=
        List.find?_cons_of_pos _ h
      rw [hcap, foldl_captureStep_of_truthy rest p.thread_id h, hfind]
      rfl
    · have hcap : captureStep none p = none := by
        simp [captureStep, truthy_none, h]
      have hfind : List.find? (fun q => truthy q.thread_id) (p :: rest)
          = List.find? (fun q => truthy q.thread_id) rest :=
        List.find?_cons_of_neg _ (by simpa using h)
      rw [hcap, ih, hfind]

/-- C10 counterexample: the first decoded frame of this stream carries the
thread_id field (with the empty string as value), but the completion callback
reports the thread id of the second frame — the capture skips falsy values. -/
theorem onComplete_skips_falsy_threadId :
    ((["data: E", "data: T2"].flatMap (processChunk testDecode)).find?
        (fun p => p.thread_id.isSome)).bind Payload.thread_id = some ""
    ∧ (createXHRStream testDecode ["data: E", "data: T2"]
        (XHRResult.completed 200)).getLast?
        = some (Callback.onComplete "completed" (some "t2"))
    ∧ (some "t2" : Option String) ≠ some "" := by
  refine ⟨by decide, by decide, by decide⟩

/-- C10 amended: when the HTTP response completes, the completion callback is
invoked exactly once, as the last callback of the stream, and it carries the
thread_id of the first decoded frame whose thread_id is truthy (present and
non-empty) — regardless of that frame and its event type — or null when no
decoded frame carried a truthy thread_id. -/
theorem onComplete_carries_first_truthy_threadId (decode : String → Option Payload)
    (chunks : List String) (status : Nat) :
    (createXHRStream decode chunks (XHRResult.completed status)).getLast?
      = some (Callback.onComplete "completed"
          (((chunks.flatMap (processChunk decode)).find? (fun p => truthy p.thread_id)).bind
            Payload.thread_id))
    ∧ (createXHRStream decode chunks (XHRResult.completed status)).countP isOnComplete = 1 := by
  constructor
  · simp [createXHRStream, foldl_captureStep_none, getLast?_append_singleton]
  · have hc := countP_onEvent_zero isOnComplete (fun _ => rfl)
      (chunks.flatMap (processChunk decode))
    simp [createXHRStream, List.countP_append, List.countP_cons, hc, isOnComplete]

/-! ### C5 — the parser tolerates malformed lines -/

theorem parseDataLine_eq_none_of_badLine {decode : String → Option Payload} {line : String}
    (h : badLine decode line) : parseDataLine decode line = none := by
  unfold badLine at h
  simp only [parseDataLine]
  rcases h with h | h | h | h <;> split_ifs <;> simp_all

/-- C5: a line that is blank, a heartbeat, lacks the record prefix, or whose
remainder fails to decode produces no event: removing such a line from the
chunk does not change the decoded event sequence — every remaining
well-formed data line is still decoded and delivered in order, and decoding
is total (it cannot terminate the stream). -/
theorem malformed_line_dropped (decode : String → Option Payload)
    (ls1 ls2 : List String) (bad : String) (h : badLine decode bad) :
    processLines decode (ls1 ++ bad :: ls2) = processLines decode (ls1 ++ ls2) := by
  unfold processLines
  rw [List.filterMap_append, List.filterMap_append]
  congr 1
  rw [List.filterMap_cons, parseDataLine_eq_none_of_badLine h]

/-- C5 witness: a garbage data line between two well-formed ones is dropped
while both neighbours are still decoded. -/
theorem malformed_line_dropped_witness :
    badLine testDecode "data: garbage"
    ∧ processLines testDecode (["data: A"] ++ "data: garbage" :: ["data: B"])
        = processLines testDecode (["data: A"] ++ ["data: B"]) :=
  ⟨Or.inr (Or.inr (Or.inr (by decide))),
   malformed_line_dropped testDecode ["data: A"] ["data: B"] "data: garbage"
     (Or.inr (Or.inr (Or.inr (by decide))))⟩

/-! ### C3 — flush-once on ai_complete -/

/-- C3: on an ai_complete (or workflow_complete) frame arriving in the
streaming phase, a non-empty live accumulator is flushed into exactly one new
complete assistant message appended at the end of the transcript (followed
only by the reasoning flush when that accumulator is also non-empty), both
accumulators are reset to empty and the phase leaves streaming; with an empty
accumulator — e.g. on a second consecutive ai_complete — no assistant message
is appended. -/
theorem ai_complete_flushes_once (now : Nat) (s : ConvState) (d : Payload) (t : Option String)
    (ht : t = some "ai_complete" ∨ t = some "workflow_complete")
    (hs : s.isStreaming = true) :
    (handleStreamEvent now s ⟨t, d⟩).messages
        = s.messages ++ (if s.streamingMessage != "" then [flushedMain now s] else [])
            ++ (if s.assistantThought != "" then [flushedThought now s] else [])
    ∧ (handleStreamEvent now s ⟨t, d⟩).streamingMessage = ""
    ∧ (handleStreamEvent now s ⟨t, d⟩).assistantThought = ""
    ∧ (handleStreamEvent now s ⟨t, d⟩).isStreaming = false := by
  have hred : handleStreamEvent now s ⟨t, d⟩ = completeCase now s := by
    rcases ht with rfl | rfl <;> rfl
  have h := appendAIMessage_spec now s
  rw [hred]
  exact ⟨by simp [completeCase, h.1], by simp [completeCase, h.2.1],
    by simp [completeCase, h.2.2.1], by simp [completeCase]⟩

/-- C3 witness: a streaming session with accumulator Hello world flushes it
into one complete assistant message on ai_complete. -/
theorem ai_complete_flushes_once_witness :
    (handleStreamEvent 7 convC3 ⟨some "ai_complete", {}⟩).messages
        = convC3.messages
            ++ (if convC3.streamingMessage != "" then [flushedMain 7 convC3] else [])
            ++ (if convC3.assistantThought != "" then [flushedThought 7 convC3] else [])
    ∧ (handleStreamEvent 7 convC3 ⟨some "ai_complete", {}⟩).streamingMessage = ""
    ∧ (handleStreamEvent 7 convC3 ⟨some "ai_complete", {}⟩).assistantThought = ""
    ∧ (handleStreamEvent 7 convC3 ⟨some "ai_complete", {}⟩).isStreaming = false :=
  ai_complete_flushes_once 7 convC3 {} (some "ai_complete") (Or.inl rfl) rfl

/-! ### C4 — echo suppression -/

theorem messageCase_echo (s : ConvState) (d : Payload)
    (hne : d.type ≠ some "assistant_thought") :
    (∀ c, d.content = some c → jsTrim c = s.lastUserInput → messageCase s d = s)
    ∧ ∀ c, d.content = some c → jsTrim c ≠ s.lastUserInput →
        (messageCase s d).streamingMessage = s.streamingMessage ++ c
        ∧ (messageCase s d).assistantThought = s.assistantThought := by
  constructor
  · intro c hc htrim
    simp [messageCase, hc, htrim]
  · intro c hc htrim
    by_cases hce : c = ""
    · subst hce
      simp [messageCase, hc, truthy]
    · have htr : truthy (some c) = true := by simp [truthy, hce]
      constructor
      · simp only [messageCase, hc, htr, Option.getD_some]
        simp [htrim, hne]
        by_cases hp : s.streamingMessage = "" <;> simp [hp]
      · simp only [messageCase, hc, htr, Option.getD_some]
        simp [htrim, hne]

/-- C4: a message / ai_chunk / node_progress frame whose content trims to the
most recently submitted user input is discarded — the whole state, in
particular both accumulators, is unchanged — while content that does not trim
to the last submission is appended to the live accumulator, and the reasoning
accumulator is untouched (for frames delivered by the transport the payload
type equals the event type, so it is never assistant_thought here). -/
theorem echo_suppression (now : Nat) (s : ConvState) (e : StreamEvent)
    (h1 : e.type = some "message" ∨ e.type = some "ai_chunk" ∨ e.type = some "node_progress")
    (h2 : e.data.type = e.type) :
    (∀ c, e.data.content = some c → jsTrim c = s.lastUserInput →
        handleStreamEvent now s e = s)
    ∧ ∀ c, e.data.content = some c → jsTrim c ≠ s.lastUserInput →
        (handleStreamEvent now s e).streamingMessage = s.streamingMessage ++ c
        ∧ (handleStreamEvent now s e).assistantThought = s.assistantThought := by
  have hne : e.data.type ≠ some "assistant_thought" := by
    rcases h1 with h | h | h <;> simp [h2, h]
  have hred : handleStreamEvent now s e = messageCase s e.data := by
    rcases h1 with h | h | h <;> simp [handleStreamEvent, h]
  rw [hred]
  exact messageCase_echo s e.data hne

/-- C4 witness: with last submission Hello, an echoed frame (content trimming
to Hello) leaves the state unchanged, and a fresh frame appends its content
to the live accumulator. -/
theorem echo_suppression_witness :
    handleStreamEvent 3 convC4 evC4echo = convC4
    ∧ (handleStreamEvent 3 convC4 evC4fresh).streamingMessage
        = convC4.streamingMessage ++ "Searching" :=
  ⟨(echo_suppression 3 convC4 evC4echo (Or.inl rfl) rfl).1 "Hello " rfl (by decide),
   ((echo_suppression 3 convC4 evC4fresh (Or.inr (Or.inr rfl)) rfl).2 "Searching" rfl
      (by decide)).1⟩

/-! ### C8 — transcript append-only and id freshness -/

theorem nodup_extend (now : Nat) (msgs tl : List Message)
    (hlt : ∀ m ∈ msgs, idNumBelow m.id now = true)
    (hnd : (msgs.map Message.id).Nodup)
    (htl : (tl.map Message.id).Nodup)
    (hge : ∀ m ∈ tl, idNumGe m.id now = true) :
    ((msgs ++ tl).map Message.id).Nodup := by
  rw [List.map_append, List.nodup_append]
  refine ⟨hnd, htl, ?_⟩
  intro a ha hb
  rcases List.mem_map.mp ha with ⟨m, hm, rfl⟩
  rcases List.mem_map.mp hb with ⟨m2, hm2, he⟩
  have hb1 := hlt m hm
  have hb2 := hge m2 hm2
  rw [he] at hb2
  cases hmi : m.id with
  | num k =>
    rw [hmi] at hb1 hb2
    simp [idNumBelow, idNumGe] at hb1 hb2
    omega
  | str s2 =>
    rw [hmi] at hb2
    simp [idNumGe] at hb2

theorem appendAIMessage_tail_spec (now : Nat) (s : ConvState) :
    ∃ t, (appendAIMessage now s).messages = s.messages ++ t
      ∧ (t.map Message.id).Nodup
      ∧ ∀ m ∈ t, idNumGe m.id now = true := by
  refine ⟨(if s.streamingMessage != "" then [flushedMain now s] else [])
      ++ (if s.assistantThought != "" then [flushedThought now s] else []), ?_, ?_, ?_⟩
  · simp [(appendAIMessage_spec now s).1, List.append_assoc]
  · by_cases hA : s.streamingMessage = "" <;> by_cases hB : s.assistantThought = "" <;>
      simp [hA, hB, flushedMain, flushedThought]
  · intro m hm
    by_cases hA : s.streamingMessage = "" <;> by_cases hB : s.assistantThought = "" <;>
        simp [hA, hB] at hm <;>
      first
        | (subst hm; simp [flushedMain, flushedThought, idNumGe])
        | (rcases hm with rfl | rfl <;> simp [flushedMain, flushedThought, idNumGe])

theorem completeCase_tail_spec (now : Nat) (s : ConvState) :
    ∃ t, (completeCase now s).messages = s.messages ++ t
      ∧ (t.map Message.id).Nodup
      ∧ ∀ m ∈ t, idNumGe m.id now = true := by
  obtain ⟨t, ht, h2, h3⟩ := appendAIMessage_tail_spec now s
  exact ⟨t, by simp [completeCase, ht], h2, h3⟩

theorem applyOp_messages_spec (now : Nat) (s : ConvState) (op : Op) :
    ∃ t, (applyOp now s op).messages = s.messages ++ t
      ∧ (t.map Message.id).Nodup
      ∧ ∀ m ∈ t, idNumGe m.id now = true := by
  cases op with
  | submit u =>
    simp only [applyOp, handleSubmit]
    split_ifs
    · exact ⟨[], by simp, by simp, by simp⟩
    · refine ⟨[userMsg now u], ?_, by simp, ?_⟩
      · simp [handleStartConversation, addUserMessage, userMsg]
      · intro m hm
        simp at hm
        subst hm
        simp [userMsg, idNumGe]
    · refine ⟨[userMsg now u], ?_, by simp, ?_⟩
      · simp [handleContinueConversation, addUserMessage, userMsg]
      · intro m hm
        simp at hm
        subst hm
        simp [userMsg, idNumGe]
  | frame e =>
    simp only [applyOp, handleStreamEvent]
    split_ifs
    · exact ⟨[], by simp, by simp, by simp⟩
    · exact ⟨[], by simp, by simp, by simp⟩
    · exact ⟨[], by simp, by simp, by simp⟩
    · exact ⟨[], by simp [messageCase_messages], by simp, by simp⟩
    · exact completeCase_tail_spec now s
    · exact ⟨[], by simp, by simp, by simp⟩
    · refine ⟨[supplierMsg now (e.data.content.getD "")],
        by simp [supplierMsg], by simp, ?_⟩
      intro m hm
      simp at hm
      subst hm
      simp [supplierMsg, idNumGe]
    · exact ⟨[], by simp, by simp, by simp⟩
    · exact ⟨[], by simp, by simp, by simp⟩
    · exact ⟨[], by simp, by simp, by simp⟩
  | complete =>
    obtain ⟨t, ht, h2, h3⟩ := appendAIMessage_tail_spec now s
    exact ⟨t, by simp [applyOp, handleStreamComplete, ht], h2, h3⟩
  | fail m =>
    exact ⟨[], by simp [applyOp, handleStreamError], by simp, by simp⟩

/-- C8 amended: every controller operation (submission, reduced frame, stream
completion, stream failure) only appends to the transcript — the previous
transcript is always a prefix of the new one, never reordered or shrunk —
and ids stay pairwise distinct whenever the clock reading of the operation is
strictly above every numeric id already in the transcript; since ids are the
clock reading at creation, two messages created in the same millisecond
collide, so uniqueness is not unconditional. -/
theorem transcript_append_only_and_fresh_ids (now : Nat) (s : ConvState) (op : Op) :
    (∃ t, (applyOp now s op).messages = s.messages ++ t)
    ∧ ((∀ m ∈ s.messages, idNumBelow m.id now = true) →
        (s.messages.map Message.id).Nodup →
        ((applyOp now s op).messages.map Message.id).Nodup) := by
  obtain ⟨t, ht, hnd, hge⟩ := applyOp_messages_spec now s op
  refine ⟨⟨t, ht⟩, fun hlt h0 => ?_⟩
  rw [ht]
  exact nodup_extend now s.messages t hlt h0 hnd hge

/-- C8 witness: a submission at clock 10 over a transcript whose only id is 3
keeps the ids pairwise distinct. -/
theorem transcript_append_only_and_fresh_ids_witness :
    ((applyOp 10 convC8 (Op.submit "hi")).messages.map Message.id).Nodup :=
  (transcript_append_only_and_fresh_ids 10 convC8 (Op.submit "hi")).2 (by decide) (by decide)

/-- C8 counterexample: a submission and a supplier_response frame processed at
the same millisecond both take id 100, so the transcript holds two messages
with the same id. -/
theorem duplicate_ids_in_same_millisecond :
    ((applyOp 100 (applyOp 100 (initialConvState none) (Op.submit "hi"))
        (Op.frame evC8)).messages.map Message.id)
        = [MsgId.num 100, MsgId.num 100]
    ∧ ¬ (([MsgId.num 100, MsgId.num 100] : List MsgId).Nodup) :=
  ⟨by decide, by decide⟩

end B2B
